import Mathlib

/-!
Shallow embedding of the streaming core of the makebeliv repository.

Embedded here are the two components the claims talk about:

* `AudioBuffer` (src/audio.rs): a bounded sample buffer (`Vec<f32>` behind a
  mutex plus a fixed `capacity`).  The mutex only serialises calls, so each
  operation is embedded as a pure state transformer on the buffer contents.
  `Vec::drain(0..k)` panics when `k` exceeds the vector length; a panic is
  modelled as `none`.
* `VoiceConversionClient` (src/client.rs): an HTTP client.  The network is
  abstracted as an `HttpResult` oracle describing the outcome of the single
  round trip a method performs; request construction (multipart form fields
  such as `model`, `pitch_shift`, `noise_type`, `noise_level`, `session_id`)
  only shapes the outgoing request and is absorbed into that oracle.
  Errors are `anyhow` errors identified by their context strings.
-/

namespace Makebeliv

/-- The ring buffer of src/audio.rs (`AudioBuffer`): a contiguous sequence of
samples (the Rust `Vec<f32>` behind the mutex, oldest at the front) together
with the fixed `capacity`.  Sample values are only moved, never computed with,
so the element type is a parameter. -/
structure AudioBuffer (α : Type) where
  buffer : List α
  capacity : Nat
deriving DecidableEq, Repr

/-- `AudioBuffer::new(capacity)`: an empty buffer with the given capacity. -/
def AudioBuffer.new (α : Type) (capacity : Nat) : AudioBuffer α :=
  { buffer := [], capacity := capacity }

/-- `AudioBuffer::push(data)`: if `len + |data| > capacity`, drains
`overflow = len + |data| - capacity` samples from the front, then appends
`data`.  `Vec::drain(0..overflow)` panics ("range end out of bounds") when
`overflow > len`; the panic is modelled as `none`. -/
def AudioBuffer.push {α : Type} (b : AudioBuffer α) (data : List α) :
    Option (AudioBuffer α) :=
  if b.buffer.length + data.length > b.capacity then
    let overflow := b.buffer.length + data.length - b.capacity
    if overflow ≤ b.buffer.length then
      some { b with buffer := b.buffer.drop overflow ++ data }
    else
      none
  else
    some { b with buffer := b.buffer ++ data }

/-- `AudioBuffer::take(len)`: if the buffer holds at least `len` samples,
drain and return the front `len` of them; otherwise return the empty vector
and leave the buffer untouched. -/
def AudioBuffer.take {α : Type} (b : AudioBuffer α) (len : Nat) :
    List α × AudioBuffer α :=
  if b.buffer.length ≥ len then
    (b.buffer.take len, { b with buffer := b.buffer.drop len })
  else
    ([], b)

/-- `AudioBuffer::len()`: number of samples currently held. -/
def AudioBuffer.len {α : Type} (b : AudioBuffer α) : Nat :=
  b.buffer.length

/-- `AudioBuffer::clear()`: drop all buffered samples. -/
def AudioBuffer.clear {α : Type} (b : AudioBuffer α) : AudioBuffer α :=
  { b with buffer := [] }

/-- One buffer operation, for stating properties of operation sequences. -/
inductive BufOp (α : Type) where
  | push (data : List α)
  | take (count : Nat)
deriving DecidableEq, Repr

/-- Apply one operation; a panicking `push` aborts the run (`none`). -/
def BufOp.apply {α : Type} (b : AudioBuffer α) : BufOp α → Option (AudioBuffer α)
  | .push data => b.push data
  | .take count => some (b.take count).2

/-- Run a sequence of buffer operations, propagating a panic. -/
def runOps {α : Type} (b : AudioBuffer α) : List (BufOp α) → Option (AudioBuffer α)
  | [] => some b
  | op :: ops => (BufOp.apply b op).bind fun b2 => runOps b2 ops

/-- `push` immediately followed by `take` of the pushed size (the round-trip
composition of src/audio.rs operations). -/
def pushTake {α : Type} (b : AudioBuffer α) (s : List α) :
    Option (List α × AudioBuffer α) :=
  (b.push s).map fun b2 => b2.take s.length

/-- Outcome of the single HTTP round trip a client method performs:
the send fails (network unreachable / timeout), the response arrives but
reading its body fails, or a response with a status code and body bytes is
fully received.  reqwest's `send` does not error on non-success statuses. -/
inductive HttpResult where
  | netFail
  | bodyFail (status : Nat)
  | ok (status : Nat) (body : List Nat)
deriving DecidableEq, Repr

/-- `VoiceConversionClient::check_status` (src/client.rs): `GET /status`, then
`response.json()`.  A send failure yields the context error
"ステータス取得エラー"; a body-read or JSON-parse failure yields
"JSON解析エラー"; otherwise the parsed payload is returned.  serde parsing is
abstracted as the `parseJson` argument into an arbitrary payload type. -/
def check_status {J : Type} (parseJson : List Nat → Option J) (http : HttpResult) :
    Except String J :=
  match http with
  | .netFail => .error "ステータス取得エラー"
  | .bodyFail _ => .error "JSON解析エラー"
  | .ok _ body =>
    match parseJson body with
    | some v => .ok v
    | none => .error "JSON解析エラー"

/-- `VoiceConversionClient::convert_chunk` (src/client.rs): `POST
/convert-chunk`, then `response.bytes()`.  A send failure yields
"チャンク変換リクエストエラー", a body-read failure "チャンク読み込みエラー";
otherwise the raw body bytes are returned.  The status code is never
inspected. -/
def convert_chunk (http : HttpResult) : Except String (List Nat) :=
  match http with
  | .netFail => .error "チャンク変換リクエストエラー"
  | .bodyFail _ => .error "チャンク読み込みエラー"
  | .ok _ body => .ok body

/-- `VoiceConversionClient::reset_session` (src/client.rs): `POST
/reset-session?session_id=...`.  A send failure yields
"セッションリセットエラー"; any received response (the body is never read,
the status never inspected) yields success. -/
def reset_session (http : HttpResult) : Except String Unit :=
  match http with
  | .netFail => .error "セッションリセットエラー"
  | .bodyFail _ => .ok ()
  | .ok _ _ => .ok ()

/-- A filesystem path, reduced to the one feature src/client.rs queries:
`Path::file_name()`, which is `None` for paths ending in `..`, a bare root,
or the empty path. -/
structure Path where
  fileName : Option String
deriving DecidableEq, Repr

/-- Observable outcome of one `convert_file` call: the `unwrap` panic, an
`anyhow` error return (identified by its context string), or a successful
write of the response body to the output path. -/
inductive FileConvOutcome where
  | panicked
  | errored (msg : String)
  | wrote (output : Path) (body : List Nat)
deriving DecidableEq, Repr

/-- `VoiceConversionClient::convert_file` (src/client.rs), in source order:
`std::fs::read(input_path)` (outcome `readResult`, `none` = I/O error), then
`input_path.file_name().unwrap()` while building the multipart form (panics
on `None`), then `POST /convert` and `response.bytes()`, then
`std::fs::write(output_path, body)` (outcome `writeOk`).  The response status
code is never inspected. -/
def convert_file (input output : Path) (readResult : Option (List Nat))
    (http : HttpResult) (writeOk : Bool) : FileConvOutcome :=
  match readResult with
  | none => .errored "入力ファイル読み込みエラー"
  | some _ =>
    match input.fileName with
    | none => .panicked
    | some _ =>
      match http with
      | .netFail => .errored "変換リクエストエラー"
      | .bodyFail _ => .errored "レスポンス読み込みエラー"
      | .ok _ body =>
        if writeOk then .wrote output body
        else .errored "出力ファイル書き込みエラー"

/-- A `push` that completes keeps the length within capacity and leaves the
capacity unchanged. -/
lemma push_preserves {α : Type} {b b' : AudioBuffer α} {data : List α}
    (h : b.push data = some b') :
    b'.buffer.length ≤ b'.capacity ∧ b'.capacity = b.capacity := by
  unfold AudioBuffer.push at h
  by_cases hov : b.buffer.length + data.length > b.capacity
  · rw [if_pos hov] at h
    by_cases hle : b.buffer.length + data.length - b.capacity ≤ b.buffer.length
    · rw [if_pos hle] at h
      cases h
      constructor
      · simp only [List.length_append, List.length_drop]
        omega
      · rfl
    · rw [if_neg hle] at h
      cases h
  · rw [if_neg hov] at h
    cases h
    constructor
    · simp only [List.length_append]
      omega
    · rfl

/-- A `take` keeps the length within capacity and the capacity unchanged. -/
lemma take_preserves {α : Type} {b : AudioBuffer α} (hb : b.buffer.length ≤ b.capacity)
    (count : Nat) :
    (b.take count).2.buffer.length ≤ (b.take count).2.capacity ∧
      (b.take count).2.capacity = b.capacity := by
  unfold AudioBuffer.take
  by_cases hc : b.buffer.length ≥ count
  · rw [if_pos hc]
    constructor
    · simp only [List.length_drop]
      omega
    · rfl
  · rw [if_neg hc]
    exact ⟨hb, rfl⟩

/-- Running any operation sequence from a valid state yields (when it
completes) a valid state with the same capacity. -/
lemma runOps_preserves {α : Type} :
    ∀ (ops : List (BufOp α)) (b b' : AudioBuffer α),
      b.buffer.length ≤ b.capacity → runOps b ops = some b' →
      b'.buffer.length ≤ b'.capacity ∧ b'.capacity = b.capacity := by
  intro ops
  induction ops with
  | nil =>
    intro b b' hb h
    cases h
    exact ⟨hb, rfl⟩
  | cons op ops ih =>
    intro b b' hb h
    unfold runOps at h
    cases hop : BufOp.apply b op with
    | none => rw [hop] at h; cases h
    | some b2 =>
      rw [hop] at h
      have h2 : b2.buffer.length ≤ b2.capacity ∧ b2.capacity = b.capacity := by
        cases op with
        | push data => exact push_preserves hop
        | take count =>
          cases hop
          exact take_preserves hb count
      obtain ⟨h2a, h2b⟩ := h2
      obtain ⟨h3a, h3b⟩ := ih b2 b' h2a h
      exact ⟨h3a, h2b ▸ h3b⟩

/-- C1: the spec's eviction law fails on its own example.  On an empty buffer
of capacity 4, pushing `[1,2,3,4,5,6]` computes `overflow = 2` and calls
`Vec::drain(0..2)` on a vector of length 0, which panics ("range end out of
bounds") instead of leaving the buffer holding `[3,4,5,6]`. -/
theorem c1_push_oversized_panics :
    (AudioBuffer.new Int 4).push [1, 2, 3, 4, 5, 6] = none ∧
      (AudioBuffer.new Int 4).push [1, 2, 3, 4, 5, 6] ≠
        some { buffer := [3, 4, 5, 6], capacity := 4 } := by
  constructor
  · decide
  · decide

/-- C2: `take` is all-or-nothing.  If the buffer holds at least `count`
samples, `take count` removes and returns exactly the front `count` samples
in FIFO order; otherwise it returns the empty vector and leaves the buffer
unchanged. -/
theorem c2_take_all_or_nothing {α : Type} (b : AudioBuffer α) (count : Nat) :
    (count ≤ b.buffer.length →
        b.take count = (b.buffer.take count, { b with buffer := b.buffer.drop count })) ∧
      (b.buffer.length < count → b.take count = ([], b)) := by
  constructor
  · intro h
    unfold AudioBuffer.take
    rw [if_pos h]
  · intro h
    unfold AudioBuffer.take
    rw [if_neg (by omega)]

/-- Witness for C2 at concrete inputs: a sufficient read and a refused one. -/
theorem c2_take_all_or_nothing_witness :
    (AudioBuffer.mk ([1, 2, 3] : List Int) 4).take 2
        = ([1, 2], AudioBuffer.mk [3] 4) ∧
      (AudioBuffer.mk ([1, 2] : List Int) 4).take 5 = ([], AudioBuffer.mk [1, 2] 4) := by
  constructor
  · exact (c2_take_all_or_nothing (AudioBuffer.mk ([1, 2, 3] : List Int) 4) 2).1
      (by decide)
  · exact (c2_take_all_or_nothing (AudioBuffer.mk ([1, 2] : List Int) 4) 5).2 (by decide)

/-- C3: for every sequence of `push`/`take` operations on a buffer created
with capacity `c`, every state the run reaches satisfies
`0 ≤ length ≤ capacity = c` (a panicking `push` yields no state at all). -/
theorem c3_length_invariant {α : Type} (c : Nat) (ops : List (BufOp α))
    (b' : AudioBuffer α) (h : runOps (AudioBuffer.new α c) ops = some b') :
    0 ≤ b'.buffer.length ∧ b'.buffer.length ≤ b'.capacity ∧ b'.capacity = c := by
  have h0 : (AudioBuffer.new α c).buffer.length ≤ (AudioBuffer.new α c).capacity := by
    simp [AudioBuffer.new]
  obtain ⟨ha, hb⟩ := runOps_preserves ops (AudioBuffer.new α c) b' h0 h
  exact ⟨Nat.zero_le _, ha, hb⟩

/-- Witness for C3: push 3, take 2, push 3 on a capacity-4 buffer. -/
theorem c3_length_invariant_witness :
    0 ≤ (AudioBuffer.mk ([3, 9, 9, 9] : List Int) 4).buffer.length ∧
      (AudioBuffer.mk ([3, 9, 9, 9] : List Int) 4).buffer.length ≤
        (AudioBuffer.mk ([3, 9, 9, 9] : List Int) 4).capacity ∧
      (AudioBuffer.mk ([3, 9, 9, 9] : List Int) 4).capacity = 4 :=
  c3_length_invariant 4 [BufOp.push [1, 2, 3], BufOp.take 2, BufOp.push [9, 9, 9]]
    (AudioBuffer.mk [3, 9, 9, 9] 4) (by decide)

/-- C4: `push` is not total.  On an empty buffer of capacity 2, pushing
`[1,2,3]` computes `overflow = 1` and `Vec::drain(0..1)` on a vector of
length 0 panics, contradicting the no-panic claim. -/
theorem c4_push_not_total :
    (AudioBuffer.new Int 2).push [1, 2, 3] = none := by
  decide

/-- C5 counterexample: the round-trip law fails on a non-empty buffer.  With
capacity 4 and contents `[9,9]`, pushing `[1,2]` causes no overflow, yet
`take 2` returns the front samples `[9,9]`, not the pushed `[1,2]`. -/
theorem c5_roundtrip_counterexample :
    (AudioBuffer.mk ([9, 9] : List Int) 4).buffer.length + ([1, 2] : List Int).length ≤ 4 ∧
      pushTake (AudioBuffer.mk ([9, 9] : List Int) 4) [1, 2]
        = some ([9, 9], AudioBuffer.mk [1, 2] 4) ∧
      ([9, 9] : List Int) ≠ [1, 2] := by
  refine ⟨by decide, by decide, by decide⟩

/-- C5 amended: starting from a buffer with empty contents, if `|s| ≤ capacity`
(so the push causes no overflow), `push s` followed by `take |s|` returns
exactly `s`, in order, leaving the buffer empty again. -/
theorem c5_roundtrip_from_empty (α : Type) (c : Nat) (s : List α) (h : s.length ≤ c) :
    pushTake (AudioBuffer.new α c) s = some (s, AudioBuffer.new α c) := by
  unfold pushTake AudioBuffer.push AudioBuffer.new
  rw [if_neg (by simpa using h)]
  simp [AudioBuffer.take]

/-- Witness for C5 amended at capacity 4 and `s = [5,6,7]`. -/
theorem c5_roundtrip_from_empty_witness :
    ([5, 6, 7] : List Int).length ≤ 4 ∧
      pushTake (AudioBuffer.new Int 4) [5, 6, 7]
        = some ([5, 6, 7], AudioBuffer.new Int 4) :=
  ⟨by decide, c5_roundtrip_from_empty Int 4 [5, 6, 7] (by decide)⟩

/-- C6 counterexample: a response with non-success status 500 makes
`convert_chunk` return the body bytes as converted audio and `reset_session`
return success — neither fails with a ServiceError. -/
theorem c6_nonsuccess_counterexample :
    convert_chunk (HttpResult.ok 500 [1, 2, 3]) = Except.ok [1, 2, 3] ∧
      reset_session (HttpResult.ok 500 []) = Except.ok () :=
  ⟨rfl, rfl⟩

/-- C6 amended: `convert_chunk` fails with a connection error when the send or
the body read fails, and on any received response returns the body bytes
regardless of status; `reset_session` fails with a connection error when the
send fails and succeeds on any received response regardless of status. -/
theorem c6_chunk_reset_errors (st : Nat) (body : List Nat) :
    convert_chunk HttpResult.netFail = Except.error "チャンク変換リクエストエラー" ∧
      convert_chunk (HttpResult.bodyFail st) = Except.error "チャンク読み込みエラー" ∧
      convert_chunk (HttpResult.ok st body) = Except.ok body ∧
      reset_session HttpResult.netFail = Except.error "セッションリセットエラー" ∧
      reset_session (HttpResult.ok st body) = Except.ok () :=
  ⟨rfl, rfl, rfl, rfl, rfl⟩

/-- C7: `check_status` returns the parsed JSON payload when a response with a
parseable body is received, and fails with the connection error context when
the service is unreachable. -/
theorem c7_check_status {J : Type} (parseJson : List Nat → Option J)
    (st : Nat) (body : List Nat) (v : J) (h : parseJson body = some v) :
    check_status parseJson (HttpResult.ok st body) = Except.ok v ∧
      check_status parseJson HttpResult.netFail = Except.error "ステータス取得エラー" := by
  constructor
  · simp [check_status, h]
  · rfl

/-- Witness for C7 with the parse function returning the body length. -/
theorem c7_check_status_witness :
    (fun b : List Nat => some b.length) [7, 8] = some 2 ∧
      check_status (fun b : List Nat => some b.length) (HttpResult.ok 200 [7, 8])
        = Except.ok 2 ∧
      check_status (fun b : List Nat => some b.length) HttpResult.netFail
        = Except.error "ステータス取得エラー" := by
  refine ⟨rfl, ?_, ?_⟩
  · exact (c7_check_status (fun b : List Nat => some b.length) 200 [7, 8] 2 rfl).1
  · exact (c7_check_status (fun b : List Nat => some b.length) 200 [7, 8] 2 rfl).2

/-- C8: once the input read and form construction succeed, `convert_file`
writes the raw response body to the output path and reports success for every
received response, whatever its status code — including non-success ones. -/
theorem c8_convert_file_ignores_status (nm : String) (output : Path)
    (bs : List Nat) (st : Nat) (body : List Nat) :
    convert_file (Path.mk (some nm)) output (some bs) (HttpResult.ok st body) true
      = FileConvOutcome.wrote output body :=
  rfl

/-- C9 counterexample: an input path with no file-name component does not
always panic — `std::fs::read` runs first, and when it fails (as it does for
every such real path, which names a directory or root) `convert_file` returns
the read error instead of reaching the `unwrap`. -/
theorem c9_no_filename_counterexample :
    convert_file (Path.mk none) (Path.mk (some "out.wav")) none HttpResult.netFail true
        = FileConvOutcome.errored "入力ファイル読み込みエラー" ∧
      convert_file (Path.mk none) (Path.mk (some "out.wav")) none HttpResult.netFail true
        ≠ FileConvOutcome.panicked := by
  refine ⟨rfl, by decide⟩

/-- C9 amended: whenever the input read succeeds and the input path has no
file-name component, `convert_file` panics on the `unwrap`, before any
request is sent (the outcome is independent of the network and of the output
write). -/
theorem c9_no_filename_panics (output : Path) (bs : List Nat)
    (http : HttpResult) (writeOk : Bool) :
    convert_file (Path.mk none) output (some bs) http writeOk
      = FileConvOutcome.panicked :=
  rfl

/-- C10: `take 0` always succeeds, returning the empty vector and leaving the
buffer contents and length unchanged. -/
theorem c10_take_zero {α : Type} (b : AudioBuffer α) : b.take 0 = ([], b) := by
  unfold AudioBuffer.take
  rw [if_pos (Nat.zero_le _)]
  simp

end Makebeliv
